import Mathlib

/-!
Shallow embedding of the bio-link application core (src/server.js, src/db.js).

Strings are modelled through their character lists; the JavaScript string
operations used by the code (`toLowerCase`, `trim`, `slice`, regex prefix
tests) are embedded as executable functions on `String`.  The relational
store is a record of lists, one per table, and every route handler is a
function from a database state (plus the untrusted request data, the opaque
random-token source and the opaque password-hash collaborators) to a
response paired with the successor state.
-/

/-! ### JavaScript string primitives -/

/-- Character-wise lowercasing, `String.prototype.toLowerCase` on the
ASCII inputs the app deals with. -/
def jsLower (s : String) : String :=
  String.mk (s.data.map Char.toLower)

/-- Whitespace recognised by `String.prototype.trim`. -/
def isJsWs (c : Char) : Bool :=
  c = ' ' || c = '\t' || c = '\n' || c = '\r'

/-- `String.prototype.trim`: strip whitespace from both ends. -/
def jsTrim (s : String) : String :=
  String.mk (((s.data.dropWhile isJsWs).reverse.dropWhile isJsWs).reverse)

/-- `String.prototype.slice(0, n)`. -/
def jsSlice (s : String) (n : Nat) : String :=
  String.mk (s.data.take n)

/-- `pat` occurs at the start of `l`. -/
def listStarts : List Char → List Char → Bool
  | [], _ => true
  | _ :: _, [] => false
  | p :: ps, c :: cs => p == c && listStarts ps cs

/-- The regex test `/^https?:\/\//i` from `validateUrl`. -/
def startsWithHttp (s : String) : Bool :=
  listStarts "http://".data (jsLower s).data || listStarts "https://".data (jsLower s).data

/-! ### db.js helpers -/

/-- Characters kept by `normalizeSlug`'s character class `[a-z0-9_-]`. -/
def isSlugChar (c : Char) : Bool :=
  (('a' ≤ c) && (c ≤ 'z')) || (('0' ≤ c) && (c ≤ '9')) || c = '_' || c = '-'

/-- `normalizeSlug` from src/db.js: lowercase, trim, strip everything
outside `[a-z0-9_-]`, truncate to 32 characters. -/
def normalizeSlug (s : String) : String :=
  String.mk (((jsTrim (jsLower s)).data.filter isSlugChar).take 32)

/-- `clamp` from src/db.js.  A non-numeric value (`Number(..)` is `NaN`,
modelled as `none`) clamps to the lower bound. -/
def clamp (n : Option ℚ) (a b : ℚ) : ℚ :=
  match n with
  | none => a
  | some q => max a (min b q)

/-- One pass of `String.prototype.replace(pat, "")` with a `gi` flag:
scan left to right, removing every case-insensitive occurrence of `pat`,
continuing after the removed text. -/
def stripTokenCI (pat : List Char) : List Char → List Char
  | [] => []
  | c :: rest =>
    if listStarts pat ((c :: rest).map Char.toLower) then
      stripTokenCI pat (rest.drop (pat.length - 1))
    else
      c :: stripTokenCI pat rest
termination_by l => l.length
decreasing_by
  · simp only [List.length_cons, List.length_drop]
    omega
  · simp only [List.length_cons]
    omega

/-- `sanitizeCss` from src/db.js: strip `</style`, `<script` and `@import`
case-insensitively, then truncate to 6000 characters. -/
def sanitizeCss (css : String) : String :=
  let s1 := stripTokenCI "</style".data css.data
  let s2 := stripTokenCI "<script".data s1
  let s3 := stripTokenCI "@import".data s2
  String.mk (s3.take 6000)

/-! ### Input validation (src/server.js) -/

/-- Characters of the username class `[a-z0-9_]`. -/
def isUsernameChar (c : Char) : Bool :=
  (('a' ≤ c) && (c ≤ 'z')) || (('0' ≤ c) && (c ≤ '9')) || c = '_'

/-- `validateUsername`: lowercase, trim, then the regex
`^[a-z0-9_]{3,20}$`. -/
def validateUsername (u : String) : Option String :=
  let u := jsTrim (jsLower u)
  if 3 ≤ u.length && u.length ≤ 20 && u.data.all isUsernameChar then some u else none

/-- `validateSlug`: normalize, then the regex `^[a-z0-9_-]{2,32}$`. -/
def validateSlug (s : String) : Option String :=
  let s := normalizeSlug s
  if 2 ≤ s.length && s.length ≤ 32 && s.data.all isSlugChar then some s else none

/-- `validateUrl`: trim; empty or non-`http(s)://` input becomes the empty
string, everything else is truncated to 400 characters. -/
def validateUrl (s : String) : String :=
  let s := jsTrim s
  if s = "" then ""
  else if startsWithHttp s then jsSlice s 400 else ""

/-! ### Data model (tables created by `migrate` in src/db.js) -/

structure User where
  id : Nat
  username : String
  password_hash : String
  created_at : String
  banned : Bool
  ban_reason : String
deriving DecidableEq, Repr

structure InviteKey where
  key : String
  created_by : Nat
  used_by : Option Nat
  used_at : Option String
  created_at : String
deriving DecidableEq, Repr

structure Link where
  label : String
  url : String
deriving DecidableEq, Repr

structure Page where
  user_id : Nat
  slug : String
  display_name : String
  bio : String
  avatar_url : String
  bg_url : String
  accent : String
  song_url : String
  song_volume : ℚ
  links_json : List Link
  custom_css : String
  updated_at : String
deriving DecidableEq, Repr

structure Session where
  token : String
  user_id : Nat
  created_at : String
deriving DecidableEq, Repr

structure Impersonation where
  token : String
  admin_user_id : Nat
  created_at : String
deriving DecidableEq, Repr

/-- The whole relational store.  `next_user_id` models the AUTOINCREMENT
counter behind `users.id` / `lastInsertRowid`. -/
structure DB where
  users : List User
  invite_keys : List InviteKey
  pages : List Page
  sessions : List Session
  impersonations : List Impersonation
  next_user_id : Nat
deriving DecidableEq, Repr

/-- JavaScript truthiness of a nullable integer column
(`inviteRow.used_by`): `null` and `0` are falsy. -/
def optNatTruthy : Option Nat → Bool
  | none => false
  | some n => n != 0

/-! ### Slug resolution (src/server.js lines 29-45) -/

/-- `uniqueSlug`: normalize the base, falling back to `"user"` when the
normalization comes out empty. -/
def uniqueSlug (base : String) : String :=
  let b := normalizeSlug base
  if b = "" then "user" else b

/-- The `while` loop of `uniqueSlugEnsure`, with the loop state `(slug, i)`
made explicit and `fuel` bounding the number of iterations (the store
query is the `taken` oracle and `nanoid(6).toLowerCase()` is drawn from
the stream `rnd`, indexed by the value of `i` at the draw). -/
def slugLoop (taken : String → Bool) (rnd : Nat → String) (base : String) :
    Nat → String → Nat → Option String
  | 0, _, _ => none
  | fuel+1, slug, i =>
    if taken slug then
      let slug1 := base ++ Nat.repr i
      let i1 := i + 1
      let slug2 := if i1 > 9999 then base ++ "-" ++ rnd i1 else slug1
      slugLoop taken rnd base fuel slug2 i1
    else some slug

/-- `uniqueSlugEnsure` from src/server.js. -/
def uniqueSlugEnsure (taken : String → Bool) (rnd : Nat → String) (base : String)
    (fuel : Nat) : Option String :=
  let b := uniqueSlug base
  slugLoop taken rnd b fuel b 2

/-- The existence probe `SELECT 1 FROM pages WHERE slug = ?`. -/
def pageTaken (db : DB) (slug : String) : Bool :=
  db.pages.any (fun p => p.slug == slug)

/-- The default `song_volume` 0.4, as a kernel-reducible rational. -/
def volDefault : ℚ := ⟨2, 5, by norm_num, by norm_num⟩

/-- `ensurePageForUser` from src/server.js: no-op when a page already
exists for the user, otherwise insert a fresh page under a globally
unique slug.  `none` models the storage failure of running out of slug
attempts. -/
def ensurePageForUser (db : DB) (userId : Nat) (username : String)
    (rnd : Nat → String) (fuel : Nat) (tNow : String) : Option DB :=
  match db.pages.find? (fun p => p.user_id == userId) with
  | some _ => some db
  | none =>
    match uniqueSlugEnsure (pageTaken db) rnd username fuel with
    | none => none
    | some slug =>
      some { db with pages := db.pages ++ [{
        user_id := userId
        slug := slug
        display_name := username
        bio := "welcome to my page"
        avatar_url := "/public/default-avatar.png"
        bg_url := ""
        accent := "#8b5cf6"
        song_url := ""
        song_volume := volDefault
        links_json := []
        custom_css := ""
        updated_at := tNow }] }

/-! ### Authentication middleware -/

/-- `getUserFromCookie`: resolve the signed session cookie to a user. -/
def getUserFromCookie (db : DB) (cookie : Option String) : Option User :=
  match cookie with
  | none => none
  | some t =>
    match db.sessions.find? (fun s => s.token == t) with
    | none => none
    | some sess => db.users.find? (fun u => u.id == sess.user_id)

inductive AuthGate where
  | redirectLogin
  | bannedForbidden
  | proceed (u : User)
deriving DecidableEq, Repr

/-- `requireAuth` from src/server.js: anonymous requests are redirected to
the login page, banned users receive the 403 "Banned" response. -/
def requireAuth (db : DB) (cookie : Option String) : AuthGate :=
  match getUserFromCookie db cookie with
  | none => .redirectLogin
  | some u => if u.banned then .bannedForbidden else .proceed u

/-- `isImpersonating`. -/
def isImpersonating (db : DB) (cookie : Option String) : Bool :=
  match cookie with
  | none => false
  | some t => db.impersonations.any (fun i => i.token == t)

/-! ### Signup (src/server.js lines 140-174) -/

structure SignupReq where
  username : String
  password : String
  invite : String

inductive SignupError where
  | invalidUsername
  | weakPassword
  | invalidInvite
  | usernameTaken
  | signupFailed
deriving DecidableEq, Repr

inductive SignupResponse where
  | redirectDashboard (cookie : String)
  | renderError (e : SignupError)
deriving DecidableEq, Repr

/-- The `POST /signup` handler.  `hash` is the opaque bcrypt primitive,
`token` the fresh `nanoid(32)` drawn for the session, `rnd` the random
suffix stream used by slug resolution, `tNow` the timestamp.  A
`UNIQUE`-violation on the user insert is the `usernameTaken` branch; a
failure inside page creation surfaces as `signupFailed`, keeping the
already-written user and invite rows (no rollback, as in the source). -/
def signup (db : DB) (req : SignupReq) (hash : String → String)
    (rnd : Nat → String) (fuel : Nat) (token : String) (tNow : String) :
    SignupResponse × DB :=
  match validateUsername req.username with
  | none => (.renderError .invalidUsername, db)
  | some username =>
    if req.password.length < 6 then (.renderError .weakPassword, db)
    else
      let invite := jsTrim req.invite
      match db.invite_keys.find? (fun k => k.key == invite) with
      | none => (.renderError .invalidInvite, db)
      | some inviteRow =>
        if optNatTruthy inviteRow.used_by then (.renderError .invalidInvite, db)
        else
          let pwHash := hash req.password
          if db.users.any (fun u => u.username == username) then
            (.renderError .usernameTaken, db)
          else
            let userId := db.next_user_id
            let db1 : DB := { db with
              users := db.users ++ [{
                id := userId
                username := username
                password_hash := pwHash
                created_at := tNow
                banned := false
                ban_reason := "" }]
              next_user_id := db.next_user_id + 1 }
            let db2 : DB := { db1 with
              invite_keys := db1.invite_keys.map (fun k =>
                if k.key == invite then
                  { k with used_by := some userId, used_at := some tNow }
                else k) }
            match ensurePageForUser db2 userId username rnd fuel tNow with
            | none => (.renderError .signupFailed, db2)
            | some db3 =>
              (.redirectDashboard token, { db3 with
                sessions := db3.sessions ++ [{
                  token := token, user_id := userId, created_at := tNow }] })

/-! ### Login and logout (src/server.js lines 180-208) -/

inductive LoginError where
  | invalidLogin
  | bannedMsg
deriving DecidableEq, Repr

inductive LoginResponse where
  | redirectDashboard (cookie : String)
  | renderError (e : LoginError)
deriving DecidableEq, Repr

/-- The `POST /login` handler.  `verify` is `bcrypt.compare`.  `none`
models the uncaught storage failure of page creation running out of slug
attempts. -/
def login (db : DB) (username password : String)
    (verify : String → String → Bool) (rnd : Nat → String) (fuel : Nat)
    (token tNow : String) : Option (LoginResponse × DB) :=
  let uname := jsTrim (jsLower username)
  match db.users.find? (fun u => u.username == uname) with
  | none => some (.renderError .invalidLogin, db)
  | some user =>
    if user.banned then some (.renderError .bannedMsg, db)
    else if !(verify password user.password_hash) then
      some (.renderError .invalidLogin, db)
    else
      match ensurePageForUser db user.id user.username rnd fuel tNow with
      | none => none
      | some db1 =>
        some (.redirectDashboard token, { db1 with
          sessions := db1.sessions ++ [{
            token := token, user_id := user.id, created_at := tNow }] })

/-- The `POST /logout` handler: delete the session and any impersonation
record carrying the cookie's token. -/
def logout (db : DB) (cookie : Option String) : DB :=
  match cookie with
  | none => db
  | some t =>
    { db with
      sessions := db.sessions.filter (fun s => !(s.token == t))
      impersonations := db.impersonations.filter (fun i => !(i.token == t)) }

/-! ### Page editing (src/server.js lines 227-293) -/

/-- The request body of `POST /dashboard`; absent form fields are the
empty string, `song_volume` is the `Number(..)` parse of the field
(`none` = `NaN`). -/
structure PageBody where
  slug : String
  display_name : String
  bio : String
  avatar_url : String
  bg_url : String
  accent : String
  song_url : String
  song_volume : Option ℚ
  custom_css : String
  labels : Nat → String
  urls : Nat → String

/-- The link-collection loop of `savePageForUser` (lines 237-244): for
each index 0..13, trim the label to 32 characters, validate the URL, skip
the entry unless the URL survived, default the label to "Link". -/
def buildLinks (body : PageBody) : List Link :=
  (List.range 14).filterMap (fun i =>
    let label := jsSlice (jsTrim (body.labels i)) 32
    let url := validateUrl (body.urls i)
    if label = "" && url = "" then none
    else if url = "" then none
    else some { label := if label = "" then "Link" else label, url := url })

inductive SaveResult where
  | noPage
  | badSlug
  | slugTaken
  | saved
deriving DecidableEq, Repr

/-- `savePageForUser` from src/server.js. -/
def savePageForUser (db : DB) (userId : Nat) (body : PageBody) (tNow : String) :
    SaveResult × DB :=
  match db.pages.find? (fun p => p.user_id == userId) with
  | none => (.noPage, db)
  | some page =>
    match validateSlug (if body.slug = "" then page.slug else body.slug) with
    | none => (.badSlug, db)
    | some slug =>
      let owner := db.pages.find? (fun p => p.slug == slug)
      if (match owner with
          | some o => o.user_id != userId
          | none => false) then (.slugTaken, db)
      else
        let links := buildLinks body
        let displayName := jsSlice (jsTrim body.display_name) 40
        let bio := jsSlice (jsTrim body.bio) 240
        let avatarRaw := jsSlice (jsTrim body.avatar_url) 400
        let avatarUrl := if avatarRaw = "" then "/public/default-avatar.png" else avatarRaw
        let bgUrl := jsSlice (jsTrim body.bg_url) 400
        let accent := jsSlice (jsTrim (if body.accent = "" then "#8b5cf6" else body.accent)) 16
        let songUrl := jsSlice (jsTrim body.song_url) 400
        let songVolume := clamp body.song_volume 0 1
        let customCss := sanitizeCss body.custom_css
        (.saved, { db with pages := db.pages.map (fun p =>
          if p.user_id == userId then
            { p with
              slug := slug
              display_name := displayName
              bio := bio
              avatar_url := avatarUrl
              bg_url := bgUrl
              accent := accent
              song_url := songUrl
              song_volume := songVolume
              links_json := links
              custom_css := customCss
              updated_at := tNow }
          else p) })

inductive DashResponse where
  | redirectLogin
  | bannedForbidden
  | rendered (r : SaveResult)
deriving DecidableEq, Repr

/-- The `POST /dashboard` route: `requireAuth`, then save. -/
def dashboardPost (db : DB) (cookie : Option String) (body : PageBody)
    (tNow : String) : DashResponse × DB :=
  match requireAuth db cookie with
  | .redirectLogin => (.redirectLogin, db)
  | .bannedForbidden => (.bannedForbidden, db)
  | .proceed u =>
    let r := savePageForUser db u.id body tNow
    (.rendered r.1, r.2)

/-- The `GET /dashboard` route: `requireAuth`, then lazy page creation. -/
def dashboardGet (db : DB) (cookie : Option String) (rnd : Nat → String)
    (fuel : Nat) (tNow : String) : Option DB :=
  match requireAuth db cookie with
  | .redirectLogin => some db
  | .bannedForbidden => some db
  | .proceed u => ensurePageForUser db u.id u.username rnd fuel tNow

/-! ### Admin routes (src/server.js lines 295-364) -/

inductive AdminResponse where
  | redirectLogin
  | bannedForbidden
  | forbidden
  | badRequest
  | notFound
  | redirectUsers
  | redirectKeys
  | redirectDashboard
  | redirectDashboardCookie (c : String)
  | redirectUsersCookie (c : String)
deriving DecidableEq, Repr

/-- The `POST /admin/keys` route: mint an invite key (`key` is the fresh
`nanoid(10).toUpperCase()`). -/
def adminCreateKey (db : DB) (cookie : Option String) (key : String)
    (tNow : String) : AdminResponse × DB :=
  match requireAuth db cookie with
  | .redirectLogin => (.redirectLogin, db)
  | .bannedForbidden => (.bannedForbidden, db)
  | .proceed u =>
    if u.id != 1 then (.forbidden, db)
    else
      (.redirectKeys, { db with invite_keys := db.invite_keys ++ [{
        key := key, created_by := u.id, used_by := none, used_at := none,
        created_at := tNow }] })

/-- The `POST /admin/users/:id/ban` route.  `targetId = 0` covers every
falsy `Number(req.params.id)`. -/
def banUser (db : DB) (cookie : Option String) (targetId : Nat)
    (reason : String) : AdminResponse × DB :=
  match requireAuth db cookie with
  | .redirectLogin => (.redirectLogin, db)
  | .bannedForbidden => (.bannedForbidden, db)
  | .proceed u =>
    if u.id != 1 then (.forbidden, db)
    else if targetId == 0 || targetId == 1 then (.badRequest, db)
    else
      (.redirectUsers, { db with users := db.users.map (fun x =>
        if x.id == targetId then
          { x with banned := true, ban_reason := jsSlice reason 120 }
        else x) })

/-- The `POST /admin/users/:id/unban` route. -/
def unbanUser (db : DB) (cookie : Option String) (targetId : Nat) :
    AdminResponse × DB :=
  match requireAuth db cookie with
  | .redirectLogin => (.redirectLogin, db)
  | .bannedForbidden => (.bannedForbidden, db)
  | .proceed u =>
    if u.id != 1 then (.forbidden, db)
    else if targetId == 0 || targetId == 1 then (.badRequest, db)
    else
      (.redirectUsers, { db with users := db.users.map (fun x =>
        if x.id == targetId then
          { x with banned := false, ban_reason := "" }
        else x) })

/-- The `POST /admin/impersonate/:id` route: create a second session for
the target together with an impersonation record naming the admin, and
hand the borrowed token to the browser. -/
def impersonate (db : DB) (cookie : Option String) (targetId : Nat)
    (token tNow : String) : AdminResponse × DB :=
  match requireAuth db cookie with
  | .redirectLogin => (.redirectLogin, db)
  | .bannedForbidden => (.bannedForbidden, db)
  | .proceed u =>
    if u.id != 1 then (.forbidden, db)
    else if targetId == 0 then (.badRequest, db)
    else
      match db.users.find? (fun x => x.id == targetId) with
      | none => (.notFound, db)
      | some _ =>
        (.redirectDashboardCookie token, { db with
          sessions := db.sessions ++ [{
            token := token, user_id := targetId, created_at := tNow }]
          impersonations := db.impersonations ++ [{
            token := token, admin_user_id := u.id, created_at := tNow }] })

/-- The `POST /admin/return` route: guarded by `requireAuth` only; when
the cookie's token carries an impersonation record, destroy the borrowed
session and the record, then mint a brand-new session (`newToken`) for
the recorded admin. -/
def adminReturn (db : DB) (cookie : Option String) (newToken tNow : String) :
    AdminResponse × DB :=
  match requireAuth db cookie with
  | .redirectLogin => (.redirectLogin, db)
  | .bannedForbidden => (.bannedForbidden, db)
  | .proceed _ =>
    match cookie with
    | none => (.redirectDashboard, db)
    | some t =>
      match db.impersonations.find? (fun i => i.token == t) with
      | none => (.redirectDashboard, db)
      | some row =>
        let db1 := { db with
          sessions := db.sessions.filter (fun s => !(s.token == t))
          impersonations := db.impersonations.filter (fun i => !(i.token == t)) }
        (.redirectUsersCookie newToken, { db1 with
          sessions := db1.sessions ++ [{
            token := newToken, user_id := row.admin_user_id, created_at := tNow }] })

/-! ### Public profile route (src/server.js lines 366-372) -/

inductive ProfileResponse where
  | notFound
  | render (p : Page)
deriving DecidableEq, Repr

/-- The `GET /:slug` route: normalize the requested segment, look the
page up by the normalized slug. -/
def getProfile (db : DB) (seg : String) : ProfileResponse :=
  match db.pages.find? (fun p => p.slug == normalizeSlug seg) with
  | none => .notFound
  | some p => .render p

/-! ### Derived notions used by the verification -/

/-- The sequence of candidates the `uniqueSlugEnsure` loop actually
checks against the pages table (derived from `slugLoop`): the base at
position 0, then the numbered candidates `base2` .. `base9998` at
positions 1..9997, then the random-suffix candidates (whose stream index
mirrors the loop counter at the corresponding draw). -/
def slugCandidate (base : String) (rnd : Nat → String) (j : Nat) : String :=
  if j = 0 then base
  else if j ≤ 9997 then base ++ Nat.repr (j + 1)
  else base ++ "-" ++ rnd (j + 2)

/-- Link filtering as claim C7 words it: an indexed entry is kept exactly
when its trimmed URL is non-empty and starts with `http://` or
`https://` case-insensitively; a kept entry's label (trimmed, capped at
32) defaults to `"Link"` when empty, and the stored URL is capped at 400
characters. -/
def specLinkKeep (body : PageBody) (i : Nat) : Option Link :=
  let url := jsTrim (body.urls i)
  if url != "" && startsWithHttp url then
    let label := jsSlice (jsTrim (body.labels i)) 32
    some { label := if label = "" then "Link" else label, url := jsSlice url 400 }
  else none

/-- The C8 invariant: every impersonation record's token is also the
token of an existing session row. -/
def impSessionInv (db : DB) : Prop :=
  ∀ imp ∈ db.impersonations, ∃ s ∈ db.sessions, s.token = imp.token

instance (db : DB) : Decidable (impSessionInv db) :=
  inferInstanceAs (Decidable (∀ imp ∈ db.impersonations, ∃ s ∈ db.sessions, s.token = imp.token))

/-- One request-level transition of the store: each constructor applies
one state-changing route handler with arbitrary request data. -/
inductive Step : DB → DB → Prop where
  | ofSignup (db : DB) (req : SignupReq) (hash : String → String)
      (rnd : Nat → String) (fuel : Nat) (token tNow : String) :
      Step db (signup db req hash rnd fuel token tNow).2
  | ofLogin (db : DB) (username password : String)
      (verify : String → String → Bool) (rnd : Nat → String) (fuel : Nat)
      (token tNow : String) (r : LoginResponse) (db1 : DB) :
      login db username password verify rnd fuel token tNow = some (r, db1) →
      Step db db1
  | ofLogout (db : DB) (cookie : Option String) :
      Step db (logout db cookie)
  | ofDashboardGet (db : DB) (cookie : Option String) (rnd : Nat → String)
      (fuel : Nat) (tNow : String) (db1 : DB) :
      dashboardGet db cookie rnd fuel tNow = some db1 →
      Step db db1
  | ofDashboardPost (db : DB) (cookie : Option String) (body : PageBody)
      (tNow : String) :
      Step db (dashboardPost db cookie body tNow).2
  | ofAdminCreateKey (db : DB) (cookie : Option String) (key tNow : String) :
      Step db (adminCreateKey db cookie key tNow).2
  | ofBanUser (db : DB) (cookie : Option String) (targetId : Nat) (reason : String) :
      Step db (banUser db cookie targetId reason).2
  | ofUnbanUser (db : DB) (cookie : Option String) (targetId : Nat) :
      Step db (unbanUser db cookie targetId).2
  | ofImpersonate (db : DB) (cookie : Option String) (targetId : Nat)
      (token tNow : String) :
      Step db (impersonate db cookie targetId token tNow).2
  | ofAdminReturn (db : DB) (cookie : Option String) (newToken tNow : String) :
      Step db (adminReturn db cookie newToken tNow).2

/-! ### Concrete stores and requests (evaluation inputs for witnesses and
counterexamples) -/

/-- A store with one unused invite key and no users. -/
def dbC1 : DB :=
  { users := []
    invite_keys := [{ key := "KEY1", created_by := 1, used_by := none,
                      used_at := none, created_at := "t0" }]
    pages := []
    sessions := []
    impersonations := []
    next_user_id := 1 }

def reqC1 : SignupReq := { username := "alice", password := "hunter22", invite := "KEY1" }

/-- A concrete stand-in for the opaque bcrypt hash. -/
def hashC : String → String := fun p => "h:" ++ p

/-- A concrete stand-in for `bcrypt.compare`. -/
def verifyC : String → String → Bool := fun p h => h == "h:" ++ p

/-- A concrete stand-in for the random-suffix stream. -/
def rndC : Nat → String := fun _ => "rr"

/-- Admin (id 1), a banned user bob (id 2), and an admin session. -/
def dbC2 : DB :=
  { users := [{ id := 1, username := "admin", password_hash := "h:a",
                created_at := "t0", banned := false, ban_reason := "" },
              { id := 2, username := "bob", password_hash := "h:b",
                created_at := "t0", banned := true, ban_reason := "rude" }]
    invite_keys := []
    pages := []
    sessions := [{ token := "ta", user_id := 1, created_at := "t0" }]
    impersonations := []
    next_user_id := 3 }

/-- `dbC2` right after the admin impersonated banned bob with token "tb". -/
def dbC2i : DB :=
  { dbC2 with
    sessions := dbC2.sessions ++ [{ token := "tb", user_id := 2, created_at := "t1" }]
    impersonations := [{ token := "tb", admin_user_id := 1, created_at := "t1" }] }

/-- Admin (id 1), a normal user carol (id 2), and an admin session. -/
def dbC2w : DB :=
  { dbC2 with
    users := [{ id := 1, username := "admin", password_hash := "h:a",
                created_at := "t0", banned := false, ban_reason := "" },
              { id := 2, username := "carol", password_hash := "h:c",
                created_at := "t0", banned := false, ban_reason := "" }] }

/-- A single banned user whose stored hash is `verifyC`-compatible. -/
def dbC3 : DB :=
  { users := [{ id := 1, username := "bob", password_hash := "h:pw",
                created_at := "t0", banned := true, ban_reason := "x" }]
    invite_keys := []
    pages := []
    sessions := []
    impersonations := []
    next_user_id := 2 }

/-- A single non-banned user alice with a `verifyC`-compatible hash. -/
def dbC3w : DB :=
  { users := [{ id := 1, username := "alice", password_hash := "h:pw",
                created_at := "t0", banned := false, ban_reason := "" }]
    invite_keys := []
    pages := []
    sessions := []
    impersonations := []
    next_user_id := 2 }

/-- `dbC3w` after lazy creation of alice's page. -/
def dbC3w1 : DB :=
  { dbC3w with
    pages := [{ user_id := 1, slug := "alice", display_name := "alice",
                bio := "welcome to my page",
                avatar_url := "/public/default-avatar.png", bg_url := "",
                accent := "#8b5cf6", song_url := "", song_volume := volDefault,
                links_json := [], custom_css := "", updated_at := "t1" }] }

/-- Admin (id 1) and bob (id 2), both with live sessions. -/
def dbC4 : DB :=
  { users := [{ id := 1, username := "admin", password_hash := "h:a",
                created_at := "t0", banned := false, ban_reason := "" },
              { id := 2, username := "bob", password_hash := "h:b",
                created_at := "t0", banned := false, ban_reason := "" }]
    invite_keys := []
    pages := []
    sessions := [{ token := "ta", user_id := 1, created_at := "t0" },
                 { token := "tb", user_id := 2, created_at := "t0" }]
    impersonations := []
    next_user_id := 3 }

/-- The empty store. -/
def dbC5 : DB :=
  { users := [], invite_keys := [], pages := [], sessions := [],
    impersonations := [], next_user_id := 1 }

/-- The taken-oracle of the C6 counterexample: every slug is taken except
`"user9999"` (the numbered candidate the claim says would be probed) and
`"user-rr"` (the first random-suffix candidate under `rndC`). -/
def takenC6 : String → Bool :=
  fun s => !(s == "user9999" || s == "user-rr")

/-- Taken-oracle for the C6 witness: only the bare base is taken. -/
def takenC6w : String → Bool := fun s => s == "user"

/-- The C7 request body: entry 0 has a malformed-scheme URL, entry 1 is a
labelled https URL, entry 2 an unlabelled https URL. -/
def bodyC7 : PageBody :=
  { slug := ""
    display_name := ""
    bio := ""
    avatar_url := ""
    bg_url := ""
    accent := ""
    song_url := ""
    song_volume := none
    custom_css := ""
    labels := fun i => if i = 1 then "Blog" else ""
    urls := fun i =>
      if i = 0 then "ftp://x"
      else if i = 1 then "https://b.example"
      else if i = 2 then "https://c.example"
      else "" }

/-- A store holding one page (user 1, slug "alice"). -/
def dbC7 : DB :=
  { users := [{ id := 1, username := "alice", password_hash := "h:pw",
                created_at := "t0", banned := false, ban_reason := "" }]
    invite_keys := []
    pages := [{ user_id := 1, slug := "alice", display_name := "alice",
                bio := "welcome to my page",
                avatar_url := "/public/default-avatar.png", bg_url := "",
                accent := "#8b5cf6", song_url := "", song_volume := volDefault,
                links_json := [], custom_css := "", updated_at := "t0" }]
    sessions := []
    impersonations := []
    next_user_id := 2 }

/-- A store with a session/impersonation pair, for the C8 witness. -/
def dbC8 : DB :=
  { users := [{ id := 1, username := "admin", password_hash := "h:a",
                created_at := "t0", banned := false, ban_reason := "" }]
    invite_keys := []
    pages := []
    sessions := [{ token := "ta", user_id := 1, created_at := "t0" },
                 { token := "tb", user_id := 1, created_at := "t1" }]
    impersonations := [{ token := "tb", admin_user_id := 1, created_at := "t1" }]
    next_user_id := 2 }

/-- The single page row of `dbC7`, reused by the C9 witness. -/
def pageC9 : Page :=
  { user_id := 1, slug := "alice", display_name := "alice",
    bio := "welcome to my page",
    avatar_url := "/public/default-avatar.png", bg_url := "",
    accent := "#8b5cf6", song_url := "", song_volume := volDefault,
    links_json := [], custom_css := "", updated_at := "t0" }

/-- The C10 witness body: an empty slug field and no other data. -/
def bodyC10 : PageBody :=
  { slug := ""
    display_name := ""
    bio := ""
    avatar_url := ""
    bg_url := ""
    accent := ""
    song_url := ""
    song_volume := none
    custom_css := ""
    labels := fun _ => ""
    urls := fun _ => "" }

/-- The page row `ensurePageForUser` inserts (the INSERT of lines 53-70). -/
def pageNew (uid : Nat) (slug username tNow : String) : Page :=
  { user_id := uid, slug := slug, display_name := username,
    bio := "welcome to my page", avatar_url := "/public/default-avatar.png",
    bg_url := "", accent := "#8b5cf6", song_url := "", song_volume := volDefault,
    links_json := [], custom_css := "", updated_at := tNow }

/-! ### Helper lemmas: strings and lists -/

lemma string_mk_eq_empty_iff (l : List Char) : String.mk l = "" ↔ l = [] := by
  constructor
  · intro h
    have := congrArg String.data h
    simpa using this
  · intro h
    simp [h]

lemma startsWithHttp_ne_empty {s : String} (h : startsWithHttp s = true) : s ≠ "" := by
  intro he
  subst he
  simp [startsWithHttp, jsLower, listStarts] at h

lemma jsSlice_ne_empty {s : String} (n : Nat) (hn : n ≠ 0) (h : s ≠ "") :
    jsSlice s n ≠ "" := by
  intro he
  apply h
  rw [jsSlice, string_mk_eq_empty_iff] at he
  rcases hs : s.data with _ | ⟨c, cs⟩
  · exact String.ext hs
  · rw [hs] at he
    cases n with
    | zero => exact absurd rfl hn
    | succ m => simp at he

lemma string_append_right_ne {x y : String} (a : String) (h : x ≠ y) :
    a ++ x ≠ a ++ y := by
  intro he
  apply h
  rw [String.ext_iff] at he ⊢
  simpa [String.data_append] using he

lemma find?_append_of_none {α : Type} (p : α → Bool) (l1 l2 : List α)
    (h : ∀ x ∈ l1, p x = false) : (l1 ++ l2).find? p = l2.find? p := by
  rw [List.find?_append]
  have : l1.find? p = none := by
    rw [List.find?_eq_none]
    intro x hx
    simp [h x hx]
  simp [this]

lemma find?_map_of_pred {α : Type} (f : α → α) (p : α → Bool)
    (hf : ∀ x, p (f x) = p x) (l : List α) :
    (l.map f).find? p = (l.find? p).map f := by
  rw [List.find?_map]
  have hpf : p ∘ f = p := funext hf
  rw [hpf]

/-! ### Helper lemmas: the slug loop (C6) -/

lemma slugLoop_reaches (taken : String → Bool) (rnd : Nat → String) (base : String) :
    ∀ (fuel j N : Nat), j ≤ N →
      (∀ k, j ≤ k → k < N → taken (slugCandidate base rnd k) = true) →
      taken (slugCandidate base rnd N) = false →
      N - j < fuel →
      slugLoop taken rnd base fuel (slugCandidate base rnd j) (j + 2) =
        some (slugCandidate base rnd N) := by
  intro fuel
  induction fuel with
  | zero =>
    intro j N _ _ _ h
    omega
  | succ fuel ih =>
    intro j N hjN hall hN hf
    rcases Nat.eq_or_lt_of_le hjN with rfl | hlt
    · simp [slugLoop, hN]
    · have htj : taken (slugCandidate base rnd j) = true := hall j le_rfl hlt
      have hstep : (if j + 2 + 1 > 9999 then base ++ "-" ++ rnd (j + 2 + 1)
                    else base ++ Nat.repr (j + 2)) = slugCandidate base rnd (j + 1) := by
        rcases Nat.lt_or_ge j 9997 with h9 | h9
        · have hc : ¬ (j + 2 + 1 > 9999) := by omega
          have h0 : ¬ (j + 1 = 0) := by omega
          have h1 : j + 1 ≤ 9997 := by omega
          simp [hc, slugCandidate, h0, h1]
        · have hc : j + 2 + 1 > 9999 := by omega
          have h0 : ¬ (j + 1 = 0) := by omega
          have h1 : ¬ (j + 1 ≤ 9997) := by omega
          simp [hc, slugCandidate, h0, h1]
      have hrec := ih (j + 1) N hlt (fun k hk1 hk2 => hall k (by omega) hk2) hN (by omega)
      simp only [slugLoop, htj, if_true]
      rw [hstep]
      have harith : j + 2 + 1 = (j + 1) + 2 := by omega
      rw [harith]
      exact hrec

lemma uniqueSlugEnsure_first_free (taken : String → Bool) (rnd : Nat → String)
    (base : String) (N fuel : Nat)
    (hall : ∀ k, k < N → taken (slugCandidate (uniqueSlug base) rnd k) = true)
    (hN : taken (slugCandidate (uniqueSlug base) rnd N) = false)
    (hfuel : N < fuel) :
    uniqueSlugEnsure taken rnd base fuel =
      some (slugCandidate (uniqueSlug base) rnd N) := by
  have h := slugLoop_reaches taken rnd (uniqueSlug base) fuel 0 N (Nat.zero_le _)
    (fun k _ hk => hall k hk) hN (by omega)
  have hc0 : slugCandidate (uniqueSlug base) rnd 0 = uniqueSlug base := by
    simp [slugCandidate]
  rw [hc0] at h
  simpa [uniqueSlugEnsure] using h


/-! ### Helper lemmas: `ensurePageForUser` -/

lemma ensurePage_effects {db db1 : DB} {uid : Nat} {un : String}
    {rnd : Nat → String} {fuel : Nat} {tNow : String}
    (h : ensurePageForUser db uid un rnd fuel tNow = some db1) :
    db1.users = db.users ∧ db1.invite_keys = db.invite_keys ∧
    db1.sessions = db.sessions ∧ db1.impersonations = db.impersonations ∧
    db1.next_user_id = db.next_user_id := by
  unfold ensurePageForUser at h
  split at h
  · simp only [Option.some.injEq] at h
    subst h
    exact ⟨rfl, rfl, rfl, rfl, rfl⟩
  · split at h
    · simp at h
    · simp only [Option.some.injEq] at h
      subst h
      exact ⟨rfl, rfl, rfl, rfl, rfl⟩

lemma ensurePage_fresh {db : DB} {uid : Nat} {un : String}
    {rnd : Nat → String} {fuel : Nat} {tNow : String} {s0 : String}
    (hnopage : db.pages.find? (fun p => p.user_id == uid) = none)
    (hs0 : uniqueSlugEnsure (pageTaken db) rnd un fuel = some s0) :
    ensurePageForUser db uid un rnd fuel tNow =
      some { db with pages := db.pages ++ [pageNew uid s0 un tNow] } := by
  unfold ensurePageForUser
  rw [hnopage, hs0]
  rfl

/-! ### Helper lemmas: the impersonation-session invariant (C8) -/

lemma inv_of_same {db db2 : DB} (hs : db2.sessions = db.sessions)
    (hi : db2.impersonations = db.impersonations) (h : impSessionInv db) :
    impSessionInv db2 := by
  intro imp hmem
  rw [hi] at hmem
  obtain ⟨s, hs1, hs2⟩ := h imp hmem
  exact ⟨s, by rw [hs]; exact hs1, hs2⟩

lemma inv_addSessions {db : DB} (l : List Session) (h : impSessionInv db) :
    impSessionInv { db with sessions := db.sessions ++ l } := by
  intro imp hmem
  obtain ⟨s, hs1, hs2⟩ := h imp hmem
  exact ⟨s, List.mem_append_left _ hs1, hs2⟩

lemma inv_extend {db db3 : DB} (x : Session)
    (hs : db3.sessions = db.sessions) (hi : db3.impersonations = db.impersonations)
    (h : impSessionInv db) :
    impSessionInv { db3 with sessions := db3.sessions ++ [x] } := by
  intro imp hmem
  have hmem2 : imp ∈ db.impersonations := by rw [← hi]; exact hmem
  obtain ⟨s, hs1, hs2⟩ := h imp hmem2
  refine ⟨s, ?_, hs2⟩
  show s ∈ db3.sessions ++ [x]
  rw [hs]
  exact List.mem_append_left _ hs1

lemma inv_addPair {db : DB} (t : String) (uid aid : Nat) (c1 c2 : String)
    (h : impSessionInv db) :
    impSessionInv { db with
      sessions := db.sessions ++ [{ token := t, user_id := uid, created_at := c1 }]
      impersonations := db.impersonations ++ [{ token := t, admin_user_id := aid, created_at := c2 }] } := by
  intro imp hmem
  rcases List.mem_append.mp hmem with hold | hnew
  · obtain ⟨s, hs1, hs2⟩ := h imp hold
    exact ⟨s, List.mem_append_left _ hs1, hs2⟩
  · have himp : imp = ⟨t, aid, c2⟩ := by simpa using hnew
    subst himp
    exact ⟨⟨t, uid, c1⟩, List.mem_append_right _ (by simp), rfl⟩

lemma inv_removeToken {db : DB} (t : String) (h : impSessionInv db) :
    impSessionInv { db with
      sessions := db.sessions.filter (fun s => !(s.token == t))
      impersonations := db.impersonations.filter (fun i => !(i.token == t)) } := by
  intro imp hmem
  have hmem2 := List.mem_filter.mp hmem
  obtain ⟨hin, hne⟩ := hmem2
  obtain ⟨s, hs1, hs2⟩ := h imp hin
  refine ⟨s, List.mem_filter.mpr ⟨hs1, ?_⟩, hs2⟩
  rw [hs2]
  exact hne

lemma signup_inv (db : DB) (req : SignupReq) (hash : String → String)
    (rnd : Nat → String) (fuel : Nat) (token tNow : String)
    (h : impSessionInv db) :
    impSessionInv (signup db req hash rnd fuel token tNow).2 := by
  unfold signup
  dsimp only
  repeat' split
  all_goals try exact inv_of_same rfl rfl h
  rename_i db3 heq
  obtain ⟨-, -, hs, hi, -⟩ := ensurePage_effects heq
  exact inv_extend _ hs hi h

lemma login_inv (db : DB) (username password : String)
    (verify : String → String → Bool) (rnd : Nat → String) (fuel : Nat)
    (token tNow : String) (r : LoginResponse) (db1 : DB)
    (heq : login db username password verify rnd fuel token tNow = some (r, db1))
    (h : impSessionInv db) : impSessionInv db1 := by
  unfold login at heq
  dsimp only at heq
  split at heq
  · simp only [Option.some.injEq, Prod.mk.injEq] at heq
    obtain ⟨-, hdb⟩ := heq
    subst hdb
    exact h
  · split at heq
    · simp only [Option.some.injEq, Prod.mk.injEq] at heq
      obtain ⟨-, hdb⟩ := heq
      subst hdb
      exact h
    · split at heq
      · simp only [Option.some.injEq, Prod.mk.injEq] at heq
        obtain ⟨-, hdb⟩ := heq
        subst hdb
        exact h
      · split at heq
        · simp at heq
        · rename_i db2 hens
          simp only [Option.some.injEq, Prod.mk.injEq] at heq
          obtain ⟨-, hdb⟩ := heq
          subst hdb
          obtain ⟨-, -, hs, hi, -⟩ := ensurePage_effects hens
          exact inv_extend _ hs hi h

lemma logout_inv (db : DB) (cookie : Option String) (h : impSessionInv db) :
    impSessionInv (logout db cookie) := by
  unfold logout
  split
  · exact h
  · exact inv_removeToken _ h

lemma dashboardGet_inv (db : DB) (cookie : Option String) (rnd : Nat → String)
    (fuel : Nat) (tNow : String) (db1 : DB)
    (heq : dashboardGet db cookie rnd fuel tNow = some db1)
    (h : impSessionInv db) : impSessionInv db1 := by
  unfold dashboardGet at heq
  split at heq
  · simp only [Option.some.injEq] at heq
    subst heq
    exact h
  · simp only [Option.some.injEq] at heq
    subst heq
    exact h
  · obtain ⟨-, -, hs, hi, -⟩ := ensurePage_effects heq
    exact inv_of_same hs hi h

lemma savePage_inv (db : DB) (uid : Nat) (body : PageBody) (tNow : String)
    (h : impSessionInv db) :
    impSessionInv (savePageForUser db uid body tNow).2 := by
  unfold savePageForUser
  dsimp only
  repeat' split
  all_goals exact inv_of_same rfl rfl h

lemma dashboardPost_inv (db : DB) (cookie : Option String) (body : PageBody)
    (tNow : String) (h : impSessionInv db) :
    impSessionInv (dashboardPost db cookie body tNow).2 := by
  unfold dashboardPost
  split
  · exact h
  · exact h
  · exact savePage_inv db _ body tNow h

lemma adminCreateKey_inv (db : DB) (cookie : Option String) (key tNow : String)
    (h : impSessionInv db) :
    impSessionInv (adminCreateKey db cookie key tNow).2 := by
  unfold adminCreateKey
  repeat' split
  all_goals exact inv_of_same rfl rfl h

lemma banUser_inv (db : DB) (cookie : Option String) (targetId : Nat)
    (reason : String) (h : impSessionInv db) :
    impSessionInv (banUser db cookie targetId reason).2 := by
  unfold banUser
  repeat' split
  all_goals exact inv_of_same rfl rfl h

lemma unbanUser_inv (db : DB) (cookie : Option String) (targetId : Nat)
    (h : impSessionInv db) :
    impSessionInv (unbanUser db cookie targetId).2 := by
  unfold unbanUser
  repeat' split
  all_goals exact inv_of_same rfl rfl h

lemma impersonate_inv (db : DB) (cookie : Option String) (targetId : Nat)
    (token tNow : String) (h : impSessionInv db) :
    impSessionInv (impersonate db cookie targetId token tNow).2 := by
  unfold impersonate
  repeat' split
  all_goals try exact inv_of_same rfl rfl h
  exact inv_addPair _ _ _ _ _ h

lemma adminReturn_inv (db : DB) (cookie : Option String) (newToken tNow : String)
    (h : impSessionInv db) :
    impSessionInv (adminReturn db cookie newToken tNow).2 := by
  unfold adminReturn
  repeat' split
  all_goals try exact inv_of_same rfl rfl h
  exact inv_addSessions _ (inv_removeToken _ h)

/-- C8: every Impersonation record's token is also the token of an
existing Session row — impersonation creates the Session and the
Impersonation together, logout and return-from-impersonation delete a
Session and its Impersonation together, and no route deletes a Session
while leaving its paired Impersonation or creates an Impersonation
without its Session; hence the invariant is preserved by every
request-level transition of the store. -/
theorem impersonation_session_invariant (db db2 : DB)
    (h : impSessionInv db) (hstep : Step db db2) : impSessionInv db2 := by
  cases hstep with
  | ofSignup req hash rnd fuel token tNow =>
    exact signup_inv _ req hash rnd fuel token tNow h
  | ofLogin username password verify rnd fuel token tNow r db1 heq =>
    exact login_inv _ username password verify rnd fuel token tNow r db2 heq h
  | ofLogout cookie =>
    exact logout_inv _ cookie h
  | ofDashboardGet cookie rnd fuel tNow db1 heq =>
    exact dashboardGet_inv _ cookie rnd fuel tNow db2 heq h
  | ofDashboardPost cookie body tNow =>
    exact dashboardPost_inv _ cookie body tNow h
  | ofAdminCreateKey cookie key tNow =>
    exact adminCreateKey_inv _ cookie key tNow h
  | ofBanUser cookie targetId reason =>
    exact banUser_inv _ cookie targetId reason h
  | ofUnbanUser cookie targetId =>
    exact unbanUser_inv _ cookie targetId h
  | ofImpersonate cookie targetId token tNow =>
    exact impersonate_inv _ cookie targetId token tNow h
  | ofAdminReturn cookie newToken tNow =>
    exact adminReturn_inv _ cookie newToken tNow h

/-- C8 witness: the invariant holds on a concrete store with a borrowed
session and survives a logout that destroys the pair. -/
theorem impersonation_session_invariant_witness :
    impSessionInv (logout dbC8 (some "tb")) :=
  impersonation_session_invariant dbC8 _ (by decide) (Step.ofLogout dbC8 (some "tb"))

/-- C5: `ensurePageForUser` is idempotent — under the primary-key
invariant (at most one page per user), a successful call leaves exactly
one Page row for the user, and calling it again returns the same store
unchanged. -/
theorem ensurePage_idempotent (db db1 : DB) (uid : Nat) (uname : String)
    (rnd : Nat → String) (fuel : Nat) (tNow : String)
    (hwf : (db.pages.filter (fun p => p.user_id == uid)).length ≤ 1)
    (h : ensurePageForUser db uid uname rnd fuel tNow = some db1) :
    (db1.pages.filter (fun p => p.user_id == uid)).length = 1 ∧
    ensurePageForUser db1 uid uname rnd fuel tNow = some db1 := by
  unfold ensurePageForUser at h
  split at h
  next p hp =>
    simp only [Option.some.injEq] at h
    subst h
    constructor
    · have hmem := List.mem_of_find?_eq_some hp
      have hpred := List.find?_some hp
      have hin : p ∈ db.pages.filter (fun q => q.user_id == uid) :=
        List.mem_filter.mpr ⟨hmem, hpred⟩
      have hne := List.ne_nil_of_mem hin
      have hlen : (db.pages.filter (fun q => q.user_id == uid)).length ≠ 0 :=
        fun h0 => hne (List.length_eq_zero.mp h0)
      omega
    · unfold ensurePageForUser
      rw [hp]
  next hp =>
    split at h
    next => simp at h
    next s0 hs0 =>
      simp only [Option.some.injEq] at h
      subst h
      have hall : ∀ x ∈ db.pages, (fun p => p.user_id == uid) x = false := by
        intro x hx
        simpa using List.find?_eq_none.mp hp x hx
      have hfilter : db.pages.filter (fun p => p.user_id == uid) = [] := by
        rw [List.filter_eq_nil_iff]
        intro a ha
        simpa using hall a ha
      constructor
      · show ((db.pages ++ [_]).filter _).length = 1
        rw [List.filter_append, hfilter]
        simp
      · unfold ensurePageForUser
        dsimp only
        rw [find?_append_of_none _ _ _ hall]
        simp

/-- C5 witness: on the empty store, one call creates the page and the
second call is the identity. -/
theorem ensurePage_idempotent_witness :
    ((ensurePageForUser dbC5 7 "carol" rndC 1 "t1").map
        (fun db1 => (db1.pages.filter (fun p => p.user_id == 7)).length)) = some 1 := by
  obtain ⟨h1, -⟩ := ensurePage_idempotent dbC5
    { dbC5 with pages := dbC5.pages ++ [pageNew 7 "carol" "carol" "t1"] }
    7 "carol" rndC 1 "t1" (by decide) (by decide)
  rw [show ensurePageForUser dbC5 7 "carol" rndC 1 "t1" =
    some { dbC5 with pages := dbC5.pages ++ [pageNew 7 "carol" "carol" "t1"] } from by decide]
  simpa using h1

/-! ### Helper lemmas: slug normalization -/

lemma normalizeSlug_length_le (s : String) : (normalizeSlug s).length ≤ 32 := by
  show (((jsTrim (jsLower s)).data.filter isSlugChar).take 32).length ≤ 32
  rw [List.length_take]
  omega

lemma normalizeSlug_all (s : String) :
    (normalizeSlug s).data.all isSlugChar = true := by
  rw [List.all_eq_true]
  intro c hc
  have hc2 : c ∈ (jsTrim (jsLower s)).data.filter isSlugChar :=
    List.mem_of_mem_take hc
  exact List.of_mem_filter hc2

/-- C9: the public profile route `GET /:slug` normalizes the requested
path segment (lowercase, strip characters outside `[a-z0-9_-]`, truncate
to 32) before the lookup: any segment normalizing to a stored page's
slug renders that page, and a segment normalizing to no stored slug
yields the 404 response. -/
theorem getProfile_normalizes (db : DB) (page : Page) (seg seg2 : String)
    (huniq : ∀ q ∈ db.pages, q.slug = page.slug → q = page)
    (hmem : page ∈ db.pages)
    (hseg : normalizeSlug seg = page.slug) :
    getProfile db seg = .render page ∧
    ((∀ q ∈ db.pages, q.slug ≠ normalizeSlug seg2) →
      getProfile db seg2 = .notFound) := by
  constructor
  · unfold getProfile
    cases hfind : db.pages.find? (fun p => p.slug == normalizeSlug seg) with
    | none =>
      exfalso
      have := List.find?_eq_none.mp hfind page hmem
      simp [hseg] at this
    | some q =>
      have hq1 := List.find?_some hfind
      have hq2 := List.mem_of_find?_eq_some hfind
      have hqs : q.slug = page.slug := by
        rw [hseg] at hq1
        simpa using hq1
      rw [huniq q hq2 hqs]
  · intro hnone
    unfold getProfile
    have hfind : db.pages.find? (fun p => p.slug == normalizeSlug seg2) = none := by
      rw [List.find?_eq_none]
      intro q hq
      simp [hnone q hq]
    rw [hfind]

/-- C9 witness: an uppercase, decorated variant of a stored slug renders
the page; an unknown segment yields 404. -/
theorem getProfile_normalizes_witness :
    getProfile dbC7 "ALiCE" = .render pageC9 ∧ getProfile dbC7 "zzz" = .notFound := by
  have h := getProfile_normalizes dbC7 pageC9 "ALiCE" "zzz" (by decide) (by decide) (by decide)
  exact ⟨h.1, h.2 (by decide)⟩

/-- C10: `validateSlug` silently normalizes (lowercase, strip to
`[a-z0-9_-]`, truncate to 32) rather than rejecting, failing only when
the normalized residue is shorter than 2; and in `savePageForUser` an
empty slug field keeps the page's current slug. -/
theorem validateSlug_normalizes (s : String) (db : DB) (uid : Nat)
    (body : PageBody) (tNow : String) (page : Page) :
    validateSlug s =
      (if 2 ≤ (normalizeSlug s).length then some (normalizeSlug s) else none) ∧
    (db.pages.find? (fun p => p.user_id == uid) = some page →
     body.slug = "" →
     normalizeSlug page.slug = page.slug →
     2 ≤ page.slug.length →
     (∀ q ∈ db.pages, q.slug = page.slug → q.user_id = uid) →
     (savePageForUser db uid body tNow).1 = .saved ∧
     (∀ q ∈ (savePageForUser db uid body tNow).2.pages,
        q.user_id = uid → q.slug = page.slug)) := by
  have hpart1 : ∀ x : String, validateSlug x =
      (if 2 ≤ (normalizeSlug x).length then some (normalizeSlug x) else none) := by
    intro x
    unfold validateSlug
    have h32 := normalizeSlug_length_le x
    have hall := normalizeSlug_all x
    by_cases h2 : 2 ≤ (normalizeSlug x).length
    · simp [h2, h32, hall]
    · simp [h2]
  refine ⟨hpart1 s, ?_⟩
  intro hfind hempty hnorm hlen howner
  have hvs : validateSlug page.slug = some page.slug := by
    rw [hpart1 page.slug, hnorm]
    simp [hlen]
  unfold savePageForUser
  rw [hfind]
  dsimp only
  rw [hempty]
  have hif : (if ("" : String) = "" then page.slug else ("" : String)) = page.slug := by
    simp
  rw [hif, hvs]
  dsimp only
  have howner2 : (match db.pages.find? (fun p => p.slug == page.slug) with
      | some o => o.user_id != uid
      | none => false) = false := by
    cases hf : db.pages.find? (fun p => p.slug == page.slug) with
    | none => rfl
    | some o =>
      have ho1 := List.find?_some hf
      have ho2 := List.mem_of_find?_eq_some hf
      have : o.user_id = uid := howner o ho2 (by simpa using ho1)
      simp [this]
  rw [howner2]
  simp only [Bool.false_eq_true, if_false]
  constructor
  · trivial
  · intro q hq hquid
    rw [List.mem_map] at hq
    obtain ⟨p, hp, hpq⟩ := hq
    by_cases hpid : p.user_id == uid
    · rw [← hpq]
      simp [hpid]
    · rw [← hpq] at hquid ⊢
      simp [hpid] at hquid ⊢
      exact absurd hquid (by simpa using hpid)

/-- C10 witness: a decorated uppercase slug is normalized and accepted;
an empty slug field keeps the current slug and saves. -/
theorem validateSlug_normalizes_witness :
    validateSlug "My Slug!!" = some "myslug" ∧
    (savePageForUser dbC7 1 bodyC10 "t2").1 = .saved := by
  have h := validateSlug_normalizes "My Slug!!" dbC7 1 bodyC10 "t2" pageC9
  exact ⟨h.1.trans (by decide),
    (h.2 (by decide) (by decide) (by decide) (by decide) (by decide)).1⟩

/-! ### Helper lemmas: URL validation (C7) -/

lemma validateUrl_eq (u : String) :
    validateUrl u =
      (if startsWithHttp (jsTrim u) then jsSlice (jsTrim u) 400 else "") := by
  unfold validateUrl
  by_cases h : jsTrim u = ""
  · have hs : startsWithHttp ("" : String) = false := by decide
    simp [h, hs]
  · simp [h]

lemma startsWithHttp_slice_ne {u : String} (h : startsWithHttp u = true) :
    jsSlice u 400 ≠ "" :=
  jsSlice_ne_empty 400 (by omega) (startsWithHttp_ne_empty h)

lemma buildLink_entry_eq (body : PageBody) (i : Nat) :
    (let label := jsSlice (jsTrim (body.labels i)) 32
     let url := validateUrl (body.urls i)
     if label = "" && url = "" then none
     else if url = "" then none
     else some { label := if label = "" then "Link" else label, url := url }) =
    specLinkKeep body i := by
  dsimp only
  rw [validateUrl_eq]
  unfold specLinkKeep
  by_cases hh : startsWithHttp (jsTrim (body.urls i)) = true
  · have hne : jsSlice (jsTrim (body.urls i)) 400 ≠ "" := startsWithHttp_slice_ne hh
    have hne2 : jsTrim (body.urls i) ≠ "" := startsWithHttp_ne_empty hh
    simp [hh, hne, hne2]
  · have hf : startsWithHttp (jsTrim (body.urls i)) = false := by
      simpa using hh
    by_cases hl : jsSlice (jsTrim (body.labels i)) 32 = "" <;> simp [hf, hl]

lemma buildLinks_eq_spec (body : PageBody) :
    buildLinks body = (List.range 14).filterMap (specLinkKeep body) := by
  unfold buildLinks
  congr 1
  funext i
  exact buildLink_entry_eq body i

/-- C7: an `updatePage` submission keeps, in submission order over
indices 0..13, exactly the entries whose URL is non-empty and starts
with `http://` or `https://` case-insensitively; kept labels default to
"Link" when empty; labelled entries with empty or non-http(s) URLs are
dropped.  In particular the concrete submission of the claim saves
exactly the Blog and defaulted Link entries. -/
theorem savePage_link_filtering :
    (∀ body : PageBody, buildLinks body = (List.range 14).filterMap (specLinkKeep body)) ∧
    buildLinks bodyC7 = [{ label := "Blog", url := "https://b.example" },
                         { label := "Link", url := "https://c.example" }] ∧
    (savePageForUser dbC7 1 bodyC7 "t2").1 = .saved ∧
    (∀ p ∈ (savePageForUser dbC7 1 bodyC7 "t2").2.pages,
      p.links_json = [{ label := "Blog", url := "https://b.example" },
                      { label := "Link", url := "https://c.example" }]) :=
  ⟨buildLinks_eq_spec, by decide, by decide, by decide⟩

/-- C3 counterexample: on a banned account, a login attempt whose
password does not verify is answered with the Banned message, not with
the uniform InvalidLogin message the claim requires. -/
theorem login_banned_counterexample :
    verifyC "WRONG" "h:pw" = false ∧
    login dbC3 "bob" "WRONG" verifyC rndC 1 "tk" "t1" =
      some (.renderError .bannedMsg, dbC3) ∧
    LoginError.bannedMsg ≠ LoginError.invalidLogin :=
  ⟨by decide, by decide, by decide⟩

/-- C3 (amended): for a submitted username with no matching account, or
a matching non-banned account whose password fails verification, the
response is the same InvalidLogin message (a banned account instead
receives the distinct Banned message even on a wrong password); correct
credentials on a non-banned account append a session owned by the user
with the submitted (lowercased, trimmed) username. -/
theorem login_error_uniformity (db : DB) (username password : String)
    (verify : String → String → Bool) (rnd : Nat → String) (fuel : Nat)
    (token tNow : String) :
    (db.users.find? (fun u => u.username == jsTrim (jsLower username)) = none →
      login db username password verify rnd fuel token tNow =
        some (.renderError .invalidLogin, db)) ∧
    (∀ user, db.users.find? (fun u => u.username == jsTrim (jsLower username)) = some user →
      user.banned = false →
      verify password user.password_hash = false →
      login db username password verify rnd fuel token tNow =
        some (.renderError .invalidLogin, db)) ∧
    (∀ user db1,
      db.users.find? (fun u => u.username == jsTrim (jsLower username)) = some user →
      user.banned = false →
      verify password user.password_hash = true →
      ensurePageForUser db user.id user.username rnd fuel tNow = some db1 →
      login db username password verify rnd fuel token tNow =
        some (.redirectDashboard token,
          { db1 with sessions := db1.sessions ++
              [{ token := token, user_id := user.id, created_at := tNow }] }) ∧
      user.username = jsTrim (jsLower username)) := by
  refine ⟨?_, ?_, ?_⟩
  · intro h
    unfold login
    dsimp only
    rw [h]
  · intro user hfind hban hv
    unfold login
    dsimp only
    rw [hfind]
    dsimp only
    simp [hban, hv]
  · intro user db1 hfind hban hv hens
    constructor
    · unfold login
      dsimp only
      rw [hfind]
      dsimp only
      simp only [hban, Bool.false_eq_true, if_false, hv, Bool.not_true]
      rw [hens]
    · have := List.find?_some hfind
      simpa using this

/-- C3 witness: on a concrete non-banned account, a wrong password gives
InvalidLogin and the right password creates the session. -/
theorem login_error_uniformity_witness :
    login dbC3w "alice" "bad" verifyC rndC 1 "tk" "t1" =
      some (.renderError .invalidLogin, dbC3w) ∧
    login dbC3w "alice" "pw" verifyC rndC 1 "tk" "t1" =
      some (.redirectDashboard "tk",
        { dbC3w1 with sessions := dbC3w1.sessions ++
            [{ token := "tk", user_id := 1, created_at := "t1" }] }) := by
  constructor
  · exact (login_error_uniformity dbC3w "alice" "bad" verifyC rndC 1 "tk" "t1").2.1
      { id := 1, username := "alice", password_hash := "h:pw", created_at := "t0",
        banned := false, ban_reason := "" }
      (by decide) (by decide) (by decide)
  · exact ((login_error_uniformity dbC3w "alice" "pw" verifyC rndC 1 "tk" "t1").2.2
      { id := 1, username := "alice", password_hash := "h:pw", created_at := "t0",
        banned := false, ban_reason := "" }
      dbC3w1 (by decide) (by decide) (by decide) (by decide)).1

/-- C4: banning a user X (X ≠ 1) rewrites only X's banned flag and
ban_reason — sessions, pages, invite keys and impersonations are
untouched, and every other user row survives unchanged; any
authenticated request carrying one of X's surviving sessions is then
answered with the 403 Banned gate, and after unban the same session
grants access again. -/
theorem ban_keeps_sessions_and_gates (db : DB) (tAdmin : String) (sAdm : Session)
    (adm : User) (X : User) (t : String) (s : Session) (reason : String)
    (hsA : db.sessions.find? (fun x => x.token == tAdmin) = some sAdm)
    (huA : db.users.find? (fun u => u.id == sAdm.user_id) = some adm)
    (hAban : adm.banned = false) (hA1 : adm.id = 1)
    (hX1 : X.id ≠ 1) (hX0 : X.id ≠ 0)
    (hXfind : db.users.find? (fun u => u.id == X.id) = some X)
    (hs : db.sessions.find? (fun x => x.token == t) = some s)
    (hsu : s.user_id = X.id) :
    (banUser db (some tAdmin) X.id reason).1 = .redirectUsers ∧
    (banUser db (some tAdmin) X.id reason).2.sessions = db.sessions ∧
    (banUser db (some tAdmin) X.id reason).2.pages = db.pages ∧
    (banUser db (some tAdmin) X.id reason).2.invite_keys = db.invite_keys ∧
    (banUser db (some tAdmin) X.id reason).2.impersonations = db.impersonations ∧
    (banUser db (some tAdmin) X.id reason).2.users =
      db.users.map (fun u => if u.id == X.id then
        { u with banned := true, ban_reason := jsSlice reason 120 } else u) ∧
    (∀ u ∈ db.users, u.id ≠ X.id → u ∈ (banUser db (some tAdmin) X.id reason).2.users) ∧
    requireAuth (banUser db (some tAdmin) X.id reason).2 (some t) = .bannedForbidden ∧
    (unbanUser (banUser db (some tAdmin) X.id reason).2 (some tAdmin) X.id).1 = .redirectUsers ∧
    (unbanUser (banUser db (some tAdmin) X.id reason).2 (some tAdmin) X.id).2.sessions = db.sessions ∧
    (∃ u, requireAuth
        (unbanUser (banUser db (some tAdmin) X.id reason).2 (some tAdmin) X.id).2
        (some t) = .proceed u ∧ u.id = X.id ∧ u.banned = false) := by
  have hadmX : ¬ ((adm.id == X.id) = true) := by
    simp only [beq_iff_eq, hA1]
    exact Ne.symm hX1
  have hauthA : requireAuth db (some tAdmin) = .proceed adm := by
    unfold requireAuth getUserFromCookie
    dsimp only
    rw [hsA]
    dsimp only
    rw [huA]
    simp [hAban]
  have hadm1 : (adm.id != 1) = false := by simp [hA1]
  have hXc : (X.id == 0 || X.id == 1) = false := by simp [hX0, hX1]
  have hb : banUser db (some tAdmin) X.id reason =
      (.redirectUsers, { db with users := db.users.map (fun u => if u.id == X.id then
        { u with banned := true, ban_reason := jsSlice reason 120 } else u) }) := by
    unfold banUser
    rw [hauthA]
    dsimp only
    rw [hadm1, hXc]
    rfl
  rw [hb]
  dsimp only
  set fban := fun u : User => if u.id == X.id then
    { u with banned := true, ban_reason := jsSlice reason 120 } else u with hfban
  set g := fun u : User => if u.id == X.id then
    { u with banned := false, ban_reason := "" } else u with hg
  have hfban_id : ∀ u : User, (fban u).id = u.id := by
    intro u
    by_cases h : u.id = X.id <;> simp [hfban, h]
  have hg_id : ∀ u : User, (g u).id = u.id := by
    intro u
    by_cases h : u.id = X.id <;> simp [hg, h]
  have hXX : (X.id == X.id) = true := by simp
  have hfind_map : ∀ (i : Nat) (l : List User),
      (l.map fban).find? (fun u => u.id == i) = (l.find? (fun u => u.id == i)).map fban := by
    intro i l
    apply find?_map_of_pred
    intro u
    simp [hfban_id u]
  have hfind_map_g : ∀ (i : Nat) (l : List User),
      (l.map g).find? (fun u => u.id == i) = (l.find? (fun u => u.id == i)).map g := by
    intro i l
    apply find?_map_of_pred
    intro u
    simp [hg_id u]
  have hfbanX : fban X = { X with banned := true, ban_reason := jsSlice reason 120 } := by
    simp only [hfban]
    rw [if_pos hXX]
  have hfbanAdm : fban adm = adm := by
    simp only [hfban]
    rw [if_neg hadmX]
  have hauthban : requireAuth { db with users := db.users.map fban } (some t) = .bannedForbidden := by
    unfold requireAuth getUserFromCookie
    dsimp only
    rw [hs]
    dsimp only
    rw [hsu, hfind_map X.id db.users, hXfind]
    dsimp only [Option.map]
    rw [hfbanX]
    simp
  have hauthA2 : requireAuth { db with users := db.users.map fban } (some tAdmin) = .proceed adm := by
    unfold requireAuth getUserFromCookie
    dsimp only
    rw [hsA]
    dsimp only
    rw [hfind_map sAdm.user_id db.users, huA]
    dsimp only [Option.map]
    rw [hfbanAdm]
    simp [hAban]
  have hub : unbanUser { db with users := db.users.map fban } (some tAdmin) X.id =
      (.redirectUsers, { db with users := (db.users.map fban).map g }) := by
    unfold unbanUser
    rw [hauthA2]
    dsimp only
    rw [hadm1, hXc]
    rfl
  refine ⟨rfl, rfl, rfl, rfl, rfl, rfl, ?_, hauthban, ?_, ?_, ?_⟩
  · intro u hu hne
    have hcond : ¬ ((u.id == X.id) = true) := by
      simp only [beq_iff_eq]
      exact hne
    have hfu : fban u = u := by
      simp only [hfban]
      rw [if_neg hcond]
    rw [← hfu]
    exact List.mem_map_of_mem fban hu
  · rw [hub]
  · rw [hub]
  · have hidfX : ((fban X).id == X.id) = true := by
      simp [hfban_id X]
    have hgfX : g (fban X) = { fban X with banned := false, ban_reason := "" } := by
      simp only [hg]
      rw [if_pos hidfX]
    refine ⟨g (fban X), ?_, ?_, ?_⟩
    · rw [hub]
      dsimp only
      unfold requireAuth getUserFromCookie
      dsimp only
      rw [hs]
      dsimp only
      rw [hsu, hfind_map_g X.id (db.users.map fban), hfind_map X.id db.users, hXfind]
      dsimp only [Option.map]
      rw [hgfX]
      simp
    · rw [hg_id, hfban_id]
    · rw [hgfX]

/-- C4 witness: banning bob on a concrete store keeps his session alive
but gated, and unbanning restores access. -/
theorem ban_keeps_sessions_and_gates_witness :
    (banUser dbC4 (some "ta") 2 "spam").1 = .redirectUsers ∧
    (banUser dbC4 (some "ta") 2 "spam").2.sessions = dbC4.sessions ∧
    requireAuth (banUser dbC4 (some "ta") 2 "spam").2 (some "tb") = .bannedForbidden ∧
    (∃ u, requireAuth
        (unbanUser (banUser dbC4 (some "ta") 2 "spam").2 (some "ta") 2).2
        (some "tb") = .proceed u ∧ u.id = 2 ∧ u.banned = false) := by
  obtain ⟨h1, h2, -, -, -, -, -, h8, -, -, h11⟩ :=
    ban_keeps_sessions_and_gates dbC4 "ta"
      { token := "ta", user_id := 1, created_at := "t0" }
      { id := 1, username := "admin", password_hash := "h:a", created_at := "t0",
        banned := false, ban_reason := "" }
      { id := 2, username := "bob", password_hash := "h:b", created_at := "t0",
        banned := false, ban_reason := "" }
      "tb" { token := "tb", user_id := 2, created_at := "t0" } "spam"
      (by decide) (by decide) (by decide) (by decide) (by decide) (by decide)
      (by decide) (by decide) (by decide)
  exact ⟨h1, h2, h8, h11⟩

/-- C2 (amended): for an admin A impersonating an existing non-banned
user U, impersonation adds a session for U paired with an impersonation
record naming A while A's original session stays present and still
resolves to A; a subsequent `/admin/return` with the borrowed token
deletes that session and the record and mints a brand-new session for A
(in particular the new cookie token differs from A's pre-impersonation
token). -/
theorem impersonation_roundtrip
    (db : DB) (tA : String) (sA : Session) (A : User) (uid : Nat) (U : User)
    (tokB newTok tNow tNow2 : String)
    (hsA : db.sessions.find? (fun x => x.token == tA) = some sA)
    (huA : db.users.find? (fun u => u.id == sA.user_id) = some A)
    (hAban : A.banned = false) (hA1 : A.id = 1)
    (huid : uid ≠ 0)
    (hU : db.users.find? (fun x => x.id == uid) = some U)
    (hUban : U.banned = false)
    (hBfreshS : ∀ x ∈ db.sessions, x.token ≠ tokB)
    (hBfreshI : ∀ x ∈ db.impersonations, x.token ≠ tokB)
    (hNfreshS : ∀ x ∈ db.sessions, x.token ≠ newTok)
    (hNB : newTok ≠ tokB) :
    ∃ db1 db2 : DB,
      impersonate db (some tA) uid tokB tNow = (.redirectDashboardCookie tokB, db1) ∧
      db1.sessions = db.sessions ++ [{ token := tokB, user_id := uid, created_at := tNow }] ∧
      db1.impersonations = db.impersonations ++
        [{ token := tokB, admin_user_id := A.id, created_at := tNow }] ∧
      sA ∈ db1.sessions ∧
      getUserFromCookie db1 (some tA) = some A ∧
      adminReturn db1 (some tokB) newTok tNow2 = (.redirectUsersCookie newTok, db2) ∧
      db2.sessions = db.sessions ++ [{ token := newTok, user_id := A.id, created_at := tNow2 }] ∧
      db2.impersonations = db.impersonations ∧
      (∀ x ∈ db2.sessions, x.token ≠ tokB) ∧
      newTok ≠ tA ∧
      sA ∈ db2.sessions ∧ sA.token = tA := by
  have hsAmem := List.mem_of_find?_eq_some hsA
  have hsAtok : sA.token = tA := by
    have := List.find?_some hsA
    simpa using this
  have hauthA : requireAuth db (some tA) = .proceed A := by
    unfold requireAuth getUserFromCookie
    dsimp only
    rw [hsA]
    dsimp only
    rw [huA]
    simp [hAban]
  have hA1' : (A.id != 1) = false := by simp [hA1]
  have huid' : (uid == 0) = false := by simp [huid]
  have himp : impersonate db (some tA) uid tokB tNow =
      (.redirectDashboardCookie tokB, { db with
        sessions := db.sessions ++ [{ token := tokB, user_id := uid, created_at := tNow }]
        impersonations := db.impersonations ++
          [{ token := tokB, admin_user_id := A.id, created_at := tNow }] }) := by
    unfold impersonate
    rw [hauthA]
    dsimp only
    rw [hA1', huid', hU]
    simp
  have hfreshS' : ∀ x ∈ db.sessions, (fun y : Session => y.token == tokB) x = false := by
    intro x hx
    simpa using hBfreshS x hx
  have hfreshI' : ∀ x ∈ db.impersonations,
      (fun y : Impersonation => y.token == tokB) x = false := by
    intro x hx
    simpa using hBfreshI x hx
  have hfindB : (db.sessions ++
      ([{ token := tokB, user_id := uid, created_at := tNow }] : List Session)).find?
        (fun x => x.token == tokB) =
      some { token := tokB, user_id := uid, created_at := tNow } := by
    rw [find?_append_of_none _ _ _ hfreshS']
    simp [List.find?]
  have hfindIB : (db.impersonations ++
      ([{ token := tokB, admin_user_id := A.id, created_at := tNow }] : List Impersonation)).find?
        (fun x => x.token == tokB) =
      some { token := tokB, admin_user_id := A.id, created_at := tNow } := by
    rw [find?_append_of_none _ _ _ hfreshI']
    simp [List.find?]
  have hfilterS : (db.sessions ++
      ([{ token := tokB, user_id := uid, created_at := tNow }] : List Session)).filter
        (fun s => !(s.token == tokB)) = db.sessions := by
    rw [List.filter_append]
    have h1 : db.sessions.filter (fun s => !(s.token == tokB)) = db.sessions := by
      rw [List.filter_eq_self]
      intro a ha
      simp [hBfreshS a ha]
    have h2 : ([{ token := tokB, user_id := uid, created_at := tNow }] : List Session).filter
        (fun s => !(s.token == tokB)) = [] := by
      simp [List.filter]
    rw [h1, h2, List.append_nil]
  have hfilterI : (db.impersonations ++
      ([{ token := tokB, admin_user_id := A.id, created_at := tNow }] : List Impersonation)).filter
        (fun i => !(i.token == tokB)) = db.impersonations := by
    rw [List.filter_append]
    have h1 : db.impersonations.filter (fun i => !(i.token == tokB)) = db.impersonations := by
      rw [List.filter_eq_self]
      intro a ha
      simp [hBfreshI a ha]
    have h2 : ([{ token := tokB, admin_user_id := A.id, created_at := tNow }] :
        List Impersonation).filter (fun i => !(i.token == tokB)) = [] := by
      simp [List.filter]
    rw [h1, h2, List.append_nil]
  have hauthB : requireAuth { db with
      sessions := db.sessions ++ [{ token := tokB, user_id := uid, created_at := tNow }]
      impersonations := db.impersonations ++
        [{ token := tokB, admin_user_id := A.id, created_at := tNow }] } (some tokB) =
      .proceed U := by
    unfold requireAuth getUserFromCookie
    dsimp only
    rw [hfindB]
    dsimp only
    rw [hU]
    simp [hUban]
  have hret : adminReturn { db with
      sessions := db.sessions ++ [{ token := tokB, user_id := uid, created_at := tNow }]
      impersonations := db.impersonations ++
        [{ token := tokB, admin_user_id := A.id, created_at := tNow }] }
      (some tokB) newTok tNow2 =
      (.redirectUsersCookie newTok, { db with
        sessions := db.sessions ++ [{ token := newTok, user_id := A.id, created_at := tNow2 }] }) := by
    unfold adminReturn
    rw [hauthB]
    dsimp only
    rw [hfindIB]
    dsimp only
    rw [hfilterS, hfilterI]
  refine ⟨_, _, himp, rfl, rfl, List.mem_append_left _ hsAmem, ?_, hret, rfl, rfl, ?_, ?_,
    List.mem_append_left _ hsAmem, hsAtok⟩
  · unfold getUserFromCookie
    dsimp only
    rw [List.find?_append, hsA]
    dsimp only [Option.or]
    rw [huA]
  · intro x hx
    rcases List.mem_append.mp hx with h1 | h2
    · exact hBfreshS x h1
    · have : x = { token := newTok, user_id := A.id, created_at := tNow2 } := by
        simpa using h2
      rw [this]
      exact hNB
  · have := hNfreshS sA hsAmem
    rw [hsAtok] at this
    exact Ne.symm this

/-- C2 witness: the round trip on a concrete store with a non-banned
target. -/
theorem impersonation_roundtrip_witness :
    ∃ db1 db2 : DB,
      impersonate dbC2w (some "ta") 2 "tb" "t1" = (.redirectDashboardCookie "tb", db1) ∧
      adminReturn db1 (some "tb") "tc" "t2" = (.redirectUsersCookie "tc", db2) ∧
      (∀ x ∈ db2.sessions, x.token ≠ "tb") ∧ ("tc" : String) ≠ "ta" := by
  obtain ⟨db1, db2, h1, -, -, -, -, h6, -, -, h9, h10, -, -⟩ :=
    impersonation_roundtrip dbC2w "ta"
      { token := "ta", user_id := 1, created_at := "t0" }
      { id := 1, username := "admin", password_hash := "h:a", created_at := "t0",
        banned := false, ban_reason := "" }
      2
      { id := 2, username := "carol", password_hash := "h:c", created_at := "t0",
        banned := false, ban_reason := "" }
      "tb" "tc" "t1" "t2"
      (by decide) (by decide) (by decide) (by decide) (by decide) (by decide)
      (by decide) (by decide) (by decide) (by decide) (by decide)
  exact ⟨db1, db2, h1, h6, h9, h10⟩

/-- C2 counterexample: when the impersonated user U is banned, the
subsequent `/admin/return` with the borrowed token is blocked by the
Banned gate and deletes nothing — the borrowed Session and the
Impersonation record both survive, contradicting the claim for
arbitrary existing users U. -/
theorem impersonation_return_banned_counterexample :
    (∃ u ∈ dbC2.users, u.id = 2 ∧ u.banned = true) ∧
    impersonate dbC2 (some "ta") 2 "tb" "t1" = (.redirectDashboardCookie "tb", dbC2i) ∧
    adminReturn dbC2i (some "tb") "tc" "t2" = (.bannedForbidden, dbC2i) ∧
    isImpersonating dbC2i (some "tb") = true ∧
    (∃ x ∈ dbC2i.sessions, x.token = "tb") :=
  ⟨by decide, by decide, by decide, by decide, by decide⟩

/-! ### Helper lemma: a consumed invite key rejects signup (C1) -/

lemma signup_used_invite_rejected (db : DB) (req2 : SignupReq)
    (hash2 : String → String) (rnd2 : Nat → String) (fuel2 : Nat) (tok2 tNow2 : String)
    (row : InviteKey)
    (hk : db.invite_keys.find? (fun k => k.key == jsTrim req2.invite) = some row)
    (hused : optNatTruthy row.used_by = true) :
    (∀ c, (signup db req2 hash2 rnd2 fuel2 tok2 tNow2).1 ≠ .redirectDashboard c) ∧
    (∀ u2, validateUsername req2.username = some u2 →
      ¬ req2.password.length < 6 →
      (signup db req2 hash2 rnd2 fuel2 tok2 tNow2).1 = .renderError .invalidInvite) := by
  constructor
  · intro c
    unfold signup
    dsimp only
    cases hvu : validateUsername req2.username with
    | none => simp
    | some u2 =>
      dsimp only
      by_cases hpw : req2.password.length < 6
      · simp [hpw]
      · simp only [hpw, if_false]
        rw [hk]
        dsimp only
        rw [hused]
        simp
  · intro u2 hvu hpw
    unfold signup
    dsimp only
    rw [hvu]
    dsimp only
    simp only [hpw, if_false]
    rw [hk]
    dsimp only
    rw [hused]
    simp

/-- C1: a signup with a valid username, a password of length at least 6
and an existing, unconsumed invite key — when no storage write fails
(fresh username, page creation succeeds) — creates exactly one User, one
Page and one Session row, touches no impersonation, and stamps the
invite key's used_by with the new user's id; afterwards any signup
presenting the same key cannot succeed, and fails with the
invalid-invite error whenever it passes username and password
validation. -/
theorem signup_consumes_invite
    (db : DB) (req : SignupReq) (hash : String → String) (rnd : Nat → String)
    (fuel : Nat) (token tNow : String) (uname : String) (row : InviteKey) (s0 : String)
    (hu : validateUsername req.username = some uname)
    (hp : ¬ req.password.length < 6)
    (hk : db.invite_keys.find? (fun k => k.key == jsTrim req.invite) = some row)
    (hrow : row.used_by = none)
    (hfreshName : db.users.any (fun u => u.username == uname) = false)
    (hnopage : db.pages.find? (fun p => p.user_id == db.next_user_id) = none)
    (hid : db.next_user_id ≠ 0)
    (hslug : uniqueSlugEnsure (pageTaken db) rnd uname fuel = some s0) :
    ∃ db4 : DB,
      signup db req hash rnd fuel token tNow = (.redirectDashboard token, db4) ∧
      db4.users.length = db.users.length + 1 ∧
      db4.pages.length = db.pages.length + 1 ∧
      db4.sessions.length = db.sessions.length + 1 ∧
      db4.impersonations = db.impersonations ∧
      db4.invite_keys.length = db.invite_keys.length ∧
      (∀ k ∈ db4.invite_keys, k.key = jsTrim req.invite →
        k.used_by = some db.next_user_id) ∧
      (∀ (req2 : SignupReq) (hash2 : String → String) (rnd2 : Nat → String)
          (fuel2 : Nat) (tok2 tNow2 : String),
        jsTrim req2.invite = jsTrim req.invite →
          (∀ c, (signup db4 req2 hash2 rnd2 fuel2 tok2 tNow2).1 ≠ .redirectDashboard c) ∧
          (∀ u2, validateUsername req2.username = some u2 →
            ¬ req2.password.length < 6 →
            (signup db4 req2 hash2 rnd2 fuel2 tok2 tNow2).1 =
              .renderError .invalidInvite)) := by
  have hrowkey : (row.key == jsTrim req.invite) = true := by
    have := List.find?_some hk
    simpa using this
  have hrowfalse : optNatTruthy row.used_by = false := by
    rw [hrow]
    rfl
  have hres : signup db req hash rnd fuel token tNow =
      (.redirectDashboard token,
        { users := db.users ++
            [{ id := db.next_user_id
               username := uname
               password_hash := hash req.password
               created_at := tNow
               banned := false
               ban_reason := "" }]
          invite_keys := db.invite_keys.map (fun k =>
            if k.key == jsTrim req.invite then
              { k with used_by := some db.next_user_id, used_at := some tNow }
            else k)
          pages := db.pages ++ [pageNew db.next_user_id s0 uname tNow]
          sessions := db.sessions ++
            [{ token := token
               user_id := db.next_user_id
               created_at := tNow }]
          impersonations := db.impersonations
          next_user_id := db.next_user_id + 1 }) := by
    unfold signup
    rw [hu]
    dsimp only
    simp only [hp, if_false]
    rw [hk]
    dsimp only
    rw [hrowfalse]
    simp only [Bool.false_eq_true, if_false]
    rw [hfreshName]
    simp only [Bool.false_eq_true, if_false]
    rw [ensurePage_fresh ?hnp ?hsl]
    case hnp => exact hnopage
    case hsl => exact hslug
  rw [hres]
  refine ⟨_, rfl, ?_, ?_, ?_, rfl, ?_, ?_, ?_⟩
  · simp
  · simp
  · simp
  · simp
  · intro k hkmem hkey
    obtain ⟨k0, hk0mem, hk0eq⟩ := List.mem_map.mp hkmem
    by_cases hc : (k0.key == jsTrim req.invite) = true
    · rw [← hk0eq]
      rw [if_pos hc]
    · exfalso
      rw [← hk0eq] at hkey
      rw [if_neg hc] at hkey
      apply hc
      simp [hkey]
  · intro req2 hash2 rnd2 fuel2 tok2 tNow2 hinv
    apply signup_used_invite_rejected _ req2 hash2 rnd2 fuel2 tok2 tNow2
      { row with used_by := some db.next_user_id, used_at := some tNow }
    · rw [hinv]
      dsimp only
      rw [find?_map_of_pred _ _ ?hpred db.invite_keys, hk]
      · dsimp only [Option.map]
        rw [if_pos hrowkey]
      case hpred =>
        intro k
        dsimp only
        by_cases hc : (k.key == jsTrim req.invite) = true
        · rw [if_pos hc]
        · rw [if_neg hc]
    · simp [optNatTruthy, hid]

/-- C1 witness: a concrete signup against a store holding one unused
invite key creates the three rows and consumes the key. -/
theorem signup_consumes_invite_witness :
    ∃ db4 : DB,
      signup dbC1 reqC1 hashC rndC 1 "tok1" "t1" = (.redirectDashboard "tok1", db4) ∧
      db4.users.length = 1 ∧ db4.pages.length = 1 ∧ db4.sessions.length = 1 ∧
      (∀ k ∈ db4.invite_keys, k.key = "KEY1" → k.used_by = some 1) := by
  obtain ⟨db4, h1, h2, h3, h4, -, -, h7, -⟩ :=
    signup_consumes_invite dbC1 reqC1 hashC rndC 1 "tok1" "t1" "alice"
      { key := "KEY1", created_by := 1, used_by := none, used_at := none,
        created_at := "t0" }
      "alice"
      (by decide) (by decide) (by decide) (by decide) (by decide) (by decide)
      (by decide) (by decide)
  refine ⟨db4, h1, ?_, ?_, ?_, ?_⟩
  · rw [h2]
    decide
  · rw [h3]
    decide
  · rw [h4]
    decide
  · intro k hkmem hkey
    exact h7 k hkmem (hkey.trans (by decide : ("KEY1" : String) = jsTrim reqC1.invite))

/-! ### Decimal representations of the numbered slug suffixes

`Nat.repr j` for `2 ≤ j ≤ 9998` never collides with the strings the C6
taken-oracle singles out.  Checked by the kernel in bounded blocks. -/

set_option maxRecDepth 100000 in
lemma reprBlock0 : ∀ r, r < 1000 → Nat.repr (2 + r) ≠ "9999" ∧ Nat.repr (2 + r) ≠ "-rr" := by
  decide

set_option maxRecDepth 100000 in
lemma reprBlock1 : ∀ r, r < 1000 → Nat.repr (1002 + r) ≠ "9999" ∧ Nat.repr (1002 + r) ≠ "-rr" := by
  decide

set_option maxRecDepth 100000 in
lemma reprBlock2 : ∀ r, r < 1000 → Nat.repr (2002 + r) ≠ "9999" ∧ Nat.repr (2002 + r) ≠ "-rr" := by
  decide

set_option maxRecDepth 100000 in
lemma reprBlock3 : ∀ r, r < 1000 → Nat.repr (3002 + r) ≠ "9999" ∧ Nat.repr (3002 + r) ≠ "-rr" := by
  decide

set_option maxRecDepth 100000 in
lemma reprBlock4 : ∀ r, r < 1000 → Nat.repr (4002 + r) ≠ "9999" ∧ Nat.repr (4002 + r) ≠ "-rr" := by
  decide

set_option maxRecDepth 100000 in
lemma reprBlock5 : ∀ r, r < 1000 → Nat.repr (5002 + r) ≠ "9999" ∧ Nat.repr (5002 + r) ≠ "-rr" := by
  decide

set_option maxRecDepth 100000 in
lemma reprBlock6 : ∀ r, r < 1000 → Nat.repr (6002 + r) ≠ "9999" ∧ Nat.repr (6002 + r) ≠ "-rr" := by
  decide

set_option maxRecDepth 100000 in
lemma reprBlock7 : ∀ r, r < 1000 → Nat.repr (7002 + r) ≠ "9999" ∧ Nat.repr (7002 + r) ≠ "-rr" := by
  decide

set_option maxRecDepth 100000 in
lemma reprBlock8 : ∀ r, r < 1000 → Nat.repr (8002 + r) ≠ "9999" ∧ Nat.repr (8002 + r) ≠ "-rr" := by
  decide

set_option maxRecDepth 100000 in
lemma reprBlock9 : ∀ r, r < 997 → Nat.repr (9002 + r) ≠ "9999" ∧ Nat.repr (9002 + r) ≠ "-rr" := by
  decide

lemma repr_mid_ne (j : Nat) (h2 : 2 ≤ j) (h : j ≤ 9998) :
    Nat.repr j ≠ "9999" ∧ Nat.repr j ≠ "-rr" := by
  rcases Nat.lt_or_ge j 1002 with hb | hb
  · obtain ⟨r, hr, rfl⟩ : ∃ r, r < 1000 ∧ 2 + r = j := ⟨j - 2, by omega, by omega⟩
    exact reprBlock0 r hr
  rcases Nat.lt_or_ge j 2002 with hb1 | hb1
  · obtain ⟨r, hr, rfl⟩ : ∃ r, r < 1000 ∧ 1002 + r = j := ⟨j - 1002, by omega, by omega⟩
    exact reprBlock1 r hr
  rcases Nat.lt_or_ge j 3002 with hb2 | hb2
  · obtain ⟨r, hr, rfl⟩ : ∃ r, r < 1000 ∧ 2002 + r = j := ⟨j - 2002, by omega, by omega⟩
    exact reprBlock2 r hr
  rcases Nat.lt_or_ge j 4002 with hb3 | hb3
  · obtain ⟨r, hr, rfl⟩ : ∃ r, r < 1000 ∧ 3002 + r = j := ⟨j - 3002, by omega, by omega⟩
    exact reprBlock3 r hr
  rcases Nat.lt_or_ge j 5002 with hb4 | hb4
  · obtain ⟨r, hr, rfl⟩ : ∃ r, r < 1000 ∧ 4002 + r = j := ⟨j - 4002, by omega, by omega⟩
    exact reprBlock4 r hr
  rcases Nat.lt_or_ge j 6002 with hb5 | hb5
  · obtain ⟨r, hr, rfl⟩ : ∃ r, r < 1000 ∧ 5002 + r = j := ⟨j - 5002, by omega, by omega⟩
    exact reprBlock5 r hr
  rcases Nat.lt_or_ge j 7002 with hb6 | hb6
  · obtain ⟨r, hr, rfl⟩ : ∃ r, r < 1000 ∧ 6002 + r = j := ⟨j - 6002, by omega, by omega⟩
    exact reprBlock6 r hr
  rcases Nat.lt_or_ge j 8002 with hb7 | hb7
  · obtain ⟨r, hr, rfl⟩ : ∃ r, r < 1000 ∧ 7002 + r = j := ⟨j - 7002, by omega, by omega⟩
    exact reprBlock7 r hr
  rcases Nat.lt_or_ge j 9002 with hb8 | hb8
  · obtain ⟨r, hr, rfl⟩ : ∃ r, r < 1000 ∧ 8002 + r = j := ⟨j - 8002, by omega, by omega⟩
    exact reprBlock8 r hr
  · obtain ⟨r, hr, rfl⟩ : ∃ r, r < 997 ∧ 9002 + r = j := ⟨j - 9002, by omega, by omega⟩
    exact reprBlock9 r hr

lemma takenC6_candidate (k : Nat) (h1 : 1 ≤ k) (h2 : k ≤ 9997) :
    takenC6 (slugCandidate "user" rndC k) = true := by
  have h0 : ¬ (k = 0) := by omega
  have hr := repr_mid_ne (k + 1) (by omega) (by omega)
  have hne1 : "user" ++ Nat.repr (k + 1) ≠ "user9999" := by
    have he : "user9999" = "user" ++ "9999" := rfl
    rw [he]
    exact string_append_right_ne "user" hr.1
  have hne2 : "user" ++ Nat.repr (k + 1) ≠ "user-rr" := by
    have he : "user-rr" = "user" ++ "-rr" := rfl
    rw [he]
    exact string_append_right_ne "user" hr.2
  simp only [slugCandidate, h0, if_false, h2, if_true]
  simp [takenC6, hne1, hne2]

/-- C6 (amended): slug resolution first probes the normalized base
(falling back to the literal "user" when normalization yields empty),
then on each collision the decimal suffixes 2, 3, …, 9998 in order,
checking existence after each, and after those 9998 failed sequential
attempts switches to `base ++ "-" ++ <random suffix>` candidates (a
fresh draw per further iteration); whenever some candidate of this
sequence — position N, with every earlier candidate taken — is free and
the fuel exceeds N, the loop terminates returning exactly that first
free candidate. -/
theorem uniqueSlugEnsure_first_free_candidate
    (taken : String → Bool) (rnd : Nat → String) (base : String) (N fuel : Nat)
    (hall : ∀ k, k < N → taken (slugCandidate (uniqueSlug base) rnd k) = true)
    (hN : taken (slugCandidate (uniqueSlug base) rnd N) = false)
    (hfuel : N < fuel) :
    uniqueSlugEnsure taken rnd base fuel =
      some (slugCandidate (uniqueSlug base) rnd N) :=
  uniqueSlugEnsure_first_free taken rnd base N fuel hall hN hfuel

/-- C6 witness: with only the base taken, the loop returns the first
numbered candidate. -/
theorem uniqueSlugEnsure_first_free_candidate_witness :
    uniqueSlugEnsure takenC6w rndC "user" 2 = some "user2" := by
  have h := uniqueSlugEnsure_first_free_candidate takenC6w rndC "user" 1 2
    (by intro k hk
        have hk0 : k = 0 := by omega
        subst hk0
        decide)
    (by decide) (by omega)
  exact h.trans (by decide)

/-- C6 counterexample: with every slug taken except `"user9999"` and the
first random-suffix candidate, the loop never probes the available
candidate `"user9999"` — it switches to the random fallback after
`"user9998"`, i.e. after 9998 failed sequential attempts, not the
claimed 9999. -/
theorem uniqueSlugEnsure_counterexample :
    takenC6 "user9999" = false ∧
    uniqueSlugEnsure takenC6 rndC "user" 20000 = some "user-rr" ∧
    ("user-rr" : String) ≠ "user9999" := by
  refine ⟨by decide, ?_, by decide⟩
  have hbase : uniqueSlug "user" = "user" := by decide
  have h := uniqueSlugEnsure_first_free takenC6 rndC "user" 9998 20000
    (by intro k hk
        rw [hbase]
        rcases Nat.eq_zero_or_pos k with hk0 | hpos
        · subst hk0
          decide
        · exact takenC6_candidate k hpos (by omega))
    (by rw [hbase]; decide)
    (by omega)
  rw [hbase] at h
  exact h.trans (by decide)

/-- C7 witness: the concrete submission of the claim evaluated. -/
theorem savePage_link_filtering_witness :
    buildLinks bodyC7 = [{ label := "Blog", url := "https://b.example" },
                         { label := "Link", url := "https://c.example" }] :=
  savePage_link_filtering.2.1
